import Mathlib

/-!
Verification of the MediLink PHC multilingual triage pipeline.

This file shallowly embeds the core of the repository:
  * `multilingual_translator_improved.py` (class `EnhancedMultilingualTranslator`):
    language detection by weighted regex scoring, and lexicon-driven
    longest-phrase-first symptom normalization;
  * `ai_triage_service_v3.py` (class `AITriageServiceV3`): the retry /
    timeout / fallback orchestration (`analyze_patient`), response
    validation (`_validate_result`) and the rule-based fallback classifier
    (`fallback_triage`).

Python `re` word-boundary patterns are embedded by a small matcher over
`List Char` (every detection pattern in the source has the shape
`\b lit (\s+ lit)* \b` with literal chunks); Python dict semantics
(insertion order, last-write-wins) are embedded by `pythonDict`; the
external reasoning call is an oracle of per-attempt behaviours.
-/

namespace MediLink

/-! ## Character classes and basic string helpers

`isWordChar` mirrors Python `re`'s `\w` on the character set occurring in
this repository's data: ASCII alphanumerics, underscore, and the Latin
letter blocks U+00C0–U+024F (excluding the two non-letters × U+00D7 and
÷ U+00F7).  The mojibake symbols appearing in the source data (√, †, ¨,
·, ª, ∆, …) are not word characters in Python either. -/

def isWordChar (c : Char) : Bool :=
  c.isAlphanum || c = '_' ||
    (0xC0 ≤ c.val && c.val ≤ 0x24F && c.val ≠ 0xD7 && c.val ≠ 0xF7)

/-- Python `\s` on the character set used here. -/
def isSpaceChar (c : Char) : Bool :=
  c = ' ' || c = '\t' || c = '\n' || c = '\r' || c.val = 11 || c.val = 12

/-- Python's substring test `needle in hay` (`str.__contains__`). -/
def listContainsSub (needle : List Char) : List Char → Bool
  | [] => needle.isEmpty
  | c :: rest => needle.isPrefixOf (c :: rest) || listContainsSub needle rest

/-- Substring containment on strings, as Python's `needle in hay`. -/
def strContainsSub (hay needle : String) : Bool :=
  listContainsSub needle.toList hay.toList

/-- Python `str.lower()` (character-wise, which is exact for the data in
this repository). -/
def strToLower (s : String) : String :=
  String.mk (s.data.map Char.toLower)

/-! ## A matcher for the source's detection regexes

Every pattern in `language_patterns` / `context_patterns` has the form
`\b w₁ \s+ w₂ \s+ … \s+ wₙ \b` with literal chunks `wᵢ`; a pattern is
embedded as the list of its chunks.  `\b` is a word boundary: the two
sides differ in word-char-ness (a missing side counts as non-word).
`re.findall` counts non-overlapping matches scanning left to right,
resuming after each match. -/

/-- Consume a literal chunk; return the rest of the text on success. -/
def litPrefix : List Char → List Char → Option (List Char)
  | [], rest => some rest
  | _ :: _, [] => none
  | c :: cs, d :: ds => if c = d then litPrefix cs ds else none

/-- Consume one or more whitespace characters (greedy `\s+`; the chunk
following it always starts with a non-space, so maximal munch is exact). -/
def wsPlus (rest : List Char) : Option (List Char) :=
  let rest2 := rest.dropWhile isSpaceChar
  if rest2.length < rest.length then some rest2 else none

/-- Match the chunk sequence (chunks separated by `\s+`). -/
def chunksMatch : List (List Char) → List Char → Option (List Char)
  | [], rest => some rest
  | [ck], rest => litPrefix ck rest
  | ck :: cks, rest =>
    match litPrefix ck rest with
    | none => none
    | some r =>
      match wsPlus r with
      | none => none
      | some r2 => chunksMatch cks r2

/-- Word boundary between an optional left and right character. -/
def boundary (left right : Option Char) : Bool :=
  ((left.map isWordChar).getD false) != ((right.map isWordChar).getD false)

/-- Last character a pattern consumes (the last char of its last chunk). -/
def patLastChar (pat : List (List Char)) : Option Char :=
  (pat.getLast?).bind List.getLast?

/-- Try to match `\b pat \b` at the current position; `before` is the
character just before the position. -/
def patMatchAt (pat : List (List Char)) (before : Option Char)
    (hay : List Char) : Option (List Char) :=
  if boundary before hay.head? then
    match chunksMatch pat hay with
    | none => none
    | some rest =>
      if boundary (patLastChar pat) rest.head? then some rest else none
  else none

/-- Count non-overlapping matches, scanning left to right and resuming
after each match (as `re.findall` does for the non-empty patterns of the
source; `fuel` bounds the scan by the text length). -/
def countFrom (pat : List (List Char)) : Nat → Option Char → List Char → Nat
  | 0, _, _ => 0
  | _ + 1, _, [] => 0
  | fuel + 1, before, c :: rest =>
    match patMatchAt pat before (c :: rest) with
    | some remaining => 1 + countFrom pat fuel (patLastChar pat) remaining
    | none => countFrom pat fuel (some c) rest

/-- Embedding of `len(re.findall(pattern, text))` for a `\b…\b` chunk pattern. -/
def countPattern (pat : List String) (text : String) : Nat :=
  countFrom (pat.map String.toList) text.toList.length none text.toList

/-! ## Language detection data (`language_patterns`, `context_patterns`)

Transcribed from `EnhancedMultilingualTranslator.__init__`; each regex
`\b…\b` is written as its list of literal chunks (`\s+` separators). -/

inductive Lang where
  | pidgin | hausa | igbo | yoruba
deriving DecidableEq, Repr

/-- Position of a language in the source dict's insertion order. -/
def langIdx : Lang → Nat
  | .pidgin => 0
  | .hausa => 1
  | .igbo => 2
  | .yoruba => 3

def language_patterns : Lang → List (List String)
  | .pidgin =>
    [["dey"], ["don"], ["fit"], ["comot"], ["belle"],
     ["wan"], ["na"], ["im"], ["e"], ["no"]]
  | .hausa =>
    [["zazzabi"], ["ciwon"], ["gudawa"], ["amai"], ["tari"],
     ["jiki"], ["yana"], ["mai"], ["tsanani"], ["rashin"],
     ["numfashi"], ["wahala"], ["karfi"], ["kuzari"]]
  | .igbo =>
    [["oku"], ["isi"], ["afo"], ["mgbawa"], ["ukwu"],
     ["agba"], ["ahu"], ["obi"], ["azu"], ["akpiri"],
     ["na-egbu"], ["na-ekpo"], ["na-adi"], ["na-esi"],
     ["di"], ["nwere"], ["adighi"], ["ike"], ["ume"],
     ["mgbu"], ["oke"], ["ukwuu"], ["mmiri"], ["obara"],
     ["nsogbu"], ["iku"], ["imamiri"], ["mmamiri"]]
  | .yoruba =>
    [["ib√†"], ["ori"], ["ikun"], ["√¨t·ªç"], ["ik·ªç"],
     ["ara"], ["aya"], ["eyin"], ["ofun"], ["egbon"],
     ["n", "gbona"], ["n", "dun"], ["n", "le"], ["n", "wa"],
     ["n", "yara"], ["n", "dinku"], ["n", "akpo"], ["n", "adi"],
     ["to", "gaju"], ["to", "ni"], ["gidigidi"], ["pupo"],
     ["ipalara"], ["emi"], ["alailera"], ["agbara"],
     ["eje"], ["imu"], ["isin"], ["omi"], ["ailera"]]

/-- Secondary context patterns; only Igbo and Yoruba have them. -/
def context_patterns : Lang → List (List String)
  | .pidgin => []
  | .hausa => []
  | .igbo =>
    [["kemgbe"], ["unyahu"], ["taa"], ["izu"], ["ubochi"],
     ["mgbe"], ["naani"], ["ma"], ["ka"], ["ga"]]
  | .yoruba =>
    [["lati"], ["ana"], ["oni"], ["ose"], ["ojo"],
     ["bayi"], ["nipa"], ["koja"], ["die"], ["pupo"]]

/-- Total number of primary pattern matches of a language on (already
lowercased) text. -/
def primary_matches (t : String) (l : Lang) : ℕ :=
  ((language_patterns l).map (fun p => countPattern p t)).sum

/-- Total number of context pattern matches. -/
def context_matches (t : String) (l : Lang) : ℕ :=
  ((context_patterns l).map (fun p => countPattern p t)).sum

/-- Aggregate score of a language on (already lowercased) text: every
primary pattern match adds 1, every context pattern match adds 0.5
(`score += matches * 0.5`). -/
def language_score (t : String) (l : Lang) : ℚ :=
  (primary_matches t l : ℚ) + (context_matches t l : ℚ) / 2

/-- Embedding of `max(language_scores, key=language_scores.get)`: first key of the
insertion order `pidgin, hausa, igbo, yoruba` attaining the maximum
(Python's `max` only replaces the current best on a strictly greater
key). -/
def bestLang (t : String) : Lang :=
  let b1 : Lang := .pidgin
  let b2 : Lang := if language_score t .hausa > language_score t b1 then .hausa else b1
  let b3 : Lang := if language_score t .igbo > language_score t b2 then .igbo else b2
  if language_score t .yoruba > language_score t b3 then .yoruba else b3

/-- Embedding of `EnhancedMultilingualTranslator.detect_language`. -/
def detect_language (text : String) : Option Lang :=
  if text = "" then none
  else
    let t := strToLower text
    let best := bestLang t
    if language_score t best > 0 then some best else none


/-! ## Lexicon store

Python dict construction: insertion order is kept, a duplicate key keeps
its first position but takes the last written value. -/

def dictInsert (d : List (String × String)) (kv : String × String) :
    List (String × String) :=
  if d.any (fun e => e.1 = kv.1) then
    d.map (fun e => if e.1 = kv.1 then (e.1, kv.2) else e)
  else d ++ [kv]

def pythonDict (l : List (String × String)) : List (String × String) :=
  l.foldl dictInsert []

/-- Raw entry list of `_get_pidgin_mappings` (source order, duplicates kept). -/
def pidgin_entries : List (String × String) :=
  [("body dey hot", "fever"),
  ("body dey burn", "high fever"),
  ("temperature high", "fever"),
  ("e dey hot", "fever"),
  ("im body hot", "fever"),
  ("hot body", "fever"),
  ("head dey pain me", "headache"),
  ("head dey hammer me", "severe headache"),
  ("my head dey burst", "severe headache"),
  ("belle dey pain", "stomach pain"),
  ("belle dey pain me", "abdominal pain"),
  ("stomach dey do me", "stomach pain"),
  ("body dey pain", "body aches"),
  ("body dey ache", "body pain"),
  ("chest dey pain", "chest pain"),
  ("back dey pain", "back pain"),
  ("throat dey pain", "sore throat"),
  ("joint dey pain", "joint pain"),
  ("shit dey run", "diarrhea"),
  ("belle dey run", "diarrhea"),
  ("shit dey comot", "diarrhea"),
  ("running belle", "diarrhea"),
  ("purge", "diarrhea"),
  ("e dey purge", "diarrhea"),
  ("e dey vomit", "vomiting"),
  ("im dey throw up", "vomiting"),
  ("e wan comot", "nausea"),
  ("belle wan comot", "nausea"),
  ("body no get power", "weakness"),
  ("body weak", "fatigue"),
  ("no strength", "weakness"),
  ("e no fit stand", "severe weakness"),
  ("im body don weak", "fatigue"),
  ("no energy", "fatigue"),
  ("body don tire", "exhaustion"),
  ("i no fit breathe well", "difficulty breathing"),
  ("breath dey hard", "shortness of breath"),
  ("chest dey tight", "chest tightness"),
  ("e no fit breath", "respiratory distress"),
  ("breath dey fast", "fast breathing"),
  ("cough dey worry me", "persistent cough"),
  ("e dey cough", "coughing"),
  ("im dey cough blood", "coughing blood"),
  ("dry cough", "dry cough"),
  ("e don faint", "unconscious"),
  ("e loss consciousness", "unconscious"),
  ("im body dey shake", "convulsions"),
  ("e dey shake", "seizures"),
  ("fit dey catch am", "seizures"),
  ("eye don sink", "sunken eyes"),
  ("mouth dry", "dry mouth"),
  ("no urine", "reduced urination"),
  ("body don dry", "dehydration"),
  ("blood dey comot", "bleeding"),
  ("blood dey run", "bleeding"),
  ("im dey shit blood", "bloody stool"),
  ("blood dey come from nose", "nosebleed"),
  ("body dey scratch", "itching"),
  ("rash dey", "rash"),
  ("skin dey peel", "skin peeling"),
  ("boil", "skin abscess"),
  ("belle", "pregnant"),
  ("im get belle", "pregnant"),
  ("pregnancy", "pregnant"),
  ("very bad", "severe"),
  ("small small", "mild"),
  ("plenty", "many"),
  ("no be small", "serious"),
  ("e serious", "severe"),
  ("e don worse", "worsening"),
  ("since", "for"),
  ("done reach", "about"),
  ("yesterday", "1 day"),
  ("today", "less than 1 day"),
  ("last week", "7 days"),
  ("some days", "few days"),
  ("long time", "many days"),
  ("just now", "recently")]

/-- Raw entry list of `_get_hausa_mappings` (source order, duplicates kept). -/
def hausa_entries : List (String × String) :=
  [("zazzabi", "fever"),
  ("zazzabi mai tsanani", "high fever"),
  ("jiki yana zafi", "fever"),
  ("zafi mai tsanani", "high fever"),
  ("jiki yana da zafi", "fever"),
  ("ciwon kai", "headache"),
  ("ciwon kai mai tsanani", "severe headache"),
  ("kai yana ciwo", "headache"),
  ("ciwon ciki", "stomach pain"),
  ("ciwon ciki mai tsanani", "severe abdominal pain"),
  ("ciki yana ciwo", "stomach pain"),
  ("ciwon jiki", "body aches"),
  ("jiki yana ciwo", "body pain"),
  ("ciwon kirji", "chest pain"),
  ("kirji yana ciwo", "chest pain"),
  ("ciwon baya", "back pain"),
  ("baya yana ciwo", "back pain"),
  ("ciwon makogwaro", "sore throat"),
  ("makogwaro yana ciwo", "sore throat"),
  ("ciwon gwiwa", "joint pain"),
  ("gwiwa yana ciwo", "joint pain"),
  ("gudawa", "diarrhea"),
  ("gudawa mai tsanani", "severe diarrhea"),
  ("gudawa mai jini", "bloody diarrhea"),
  ("amai", "vomiting"),
  ("amai mai tsanani", "persistent vomiting"),
  ("amai mai jini", "bloody vomiting"),
  ("rashin jin dadi", "nausea"),
  ("jin rashin jin dadi", "nausea"),
  ("rashin kuzari", "weakness"),
  ("rashin kuzari mai tsanani", "severe weakness"),
  ("rashin karfi", "weakness"),
  ("karfi ya ragu", "weakness"),
  ("rashin lafiya", "fatigue"),
  ("gajiya", "fatigue"),
  ("rashin ∆ôarfi", "weakness"),
  ("wahalar numfashi", "difficulty breathing"),
  ("numfashi mai wahala", "difficulty breathing"),
  ("rashin numfashi", "shortness of breath"),
  ("numfashi yana da wahala", "breathing difficulty"),
  ("numfashi mai sauri", "fast breathing"),
  ("numfashi mai tsanani", "severe breathing difficulty"),
  ("tari", "cough"),
  ("tari mai tsanani", "persistent cough"),
  ("tari mai jini", "coughing blood"),
  ("tari mara tsanani", "dry cough"),
  ("tari mai tsanani", "severe cough"),
  ("rashin sani", "unconscious"),
  ("rashin fahimta", "unconscious"),
  ("rashin sani mai tsanani", "severe unconsciousness"),
  ("girgiza", "convulsions"),
  ("girgiza mai tsanani", "severe convulsions"),
  ("rashin sani", "loss of consciousness"),
  ("rashin ruwa", "dehydration"),
  ("rashin ruwa mai tsanani", "severe dehydration"),
  ("bakin baki", "dry mouth"),
  ("baki yana bushe", "dry mouth"),
  ("rashin fitsari", "reduced urination"),
  ("fitsari ya ragu", "reduced urination"),
  ("zubar jini", "bleeding"),
  ("jini yana zubewa", "bleeding"),
  ("zubar jini mai tsanani", "severe bleeding"),
  ("jini daga hanci", "nosebleed"),
  ("hanci yana zubar jini", "nosebleed"),
  ("kaifi", "itching"),
  ("jiki yana kaifi", "itching"),
  ("rashin fata", "rash"),
  ("fata tana rashin", "rash"),
  ("fata tana zubewa", "skin peeling"),
  ("ciwon fata", "skin abscess"),
  ("fata tana ciwo", "skin abscess"),
  ("ciki", "pregnant"),
  ("mata tana da ciki", "pregnant"),
  ("ciki mai tsanani", "pregnancy complications"),
  ("mai tsanani", "severe"),
  ("mai sau∆ôi", "mild"),
  ("da yawa", "many"),
  ("mai mahimmanci", "serious"),
  ("mai wahala", "severe"),
  ("ya ∆ôara", "worsening"),
  ("tun", "for"),
  ("kusan", "about"),
  ("jya", "1 day"),
  ("yau", "less than 1 day"),
  ("makon da ya gabata", "7 days"),
  ("kwanaki ka…óan", "few days"),
  ("kwanaki da yawa", "many days"),
  ("yanzu", "recently")]

/-- Raw entry list of `_get_igbo_mappings` (source order, duplicates kept). -/
def igbo_entries : List (String × String) :=
  [("oku", "fever"),
  ("oku di elu", "high fever"),
  ("oku di oke", "high fever"),
  ("oku ukwu", "high fever"),
  ("ahu na-ekpo oku", "fever"),
  ("ahu na-ekpo", "fever"),
  ("ahu na-ekpo ukwu", "high fever"),
  ("oku na-adi", "fever"),
  ("oku na-adi mgbu", "fever with pain"),
  ("isi", "headache"),
  ("isi na-egbu mgbu", "severe headache"),
  ("isi na-egbu", "headache"),
  ("isi na-adi mgbu", "headache"),
  ("isi na-adi", "headache"),
  ("isi ukwu", "severe headache"),
  ("isi na-egbu ukwu", "severe headache"),
  ("afo", "stomach pain"),
  ("afo na-egbu mgbu", "severe abdominal pain"),
  ("afo na-egbu", "stomach pain"),
  ("afo na-adi mgbu", "stomach pain"),
  ("afo na-adi", "stomach pain"),
  ("afo ukwu", "severe stomach pain"),
  ("afo na-egbu ukwu", "severe abdominal pain"),
  ("ahu na-egbu mgbu", "body aches"),
  ("ahu na-egbu", "body pain"),
  ("ahu na-adi mgbu", "body pain"),
  ("ahu na-adi", "body pain"),
  ("ahu ukwu", "severe body pain"),
  ("ahu na-egbu ukwu", "severe body aches"),
  ("obi na-egbu mgbu", "chest pain"),
  ("obi na-egbu", "chest pain"),
  ("obi na-adi mgbu", "chest pain"),
  ("obi na-adi", "chest pain"),
  ("obi ukwu", "severe chest pain"),
  ("obi na-egbu ukwu", "severe chest pain"),
  ("azu na-egbu mgbu", "back pain"),
  ("azu na-egbu", "back pain"),
  ("azu na-adi mgbu", "back pain"),
  ("azu na-adi", "back pain"),
  ("azu ukwu", "severe back pain"),
  ("azu na-egbu ukwu", "severe back pain"),
  ("akpiri na-egbu mgbu", "sore throat"),
  ("akpiri na-egbu", "sore throat"),
  ("akpiri na-adi mgbu", "sore throat"),
  ("akpiri na-adi", "sore throat"),
  ("akpiri ukwu", "severe sore throat"),
  ("akpiri na-egbu ukwu", "severe sore throat"),
  ("ukwu na-egbu mgbu", "joint pain"),
  ("ukwu na-egbu", "joint pain"),
  ("ukwu na-adi mgbu", "joint pain"),
  ("ukwu na-adi", "joint pain"),
  ("ukwu ukwu", "severe joint pain"),
  ("ukwu na-egbu ukwu", "severe joint pain"),
  ("mgbawa", "diarrhea"),
  ("mgbawa di oke", "severe diarrhea"),
  ("mgbawa di ukwu", "severe diarrhea"),
  ("mgbawa nwere obara", "bloody diarrhea"),
  ("mgbawa na-adi", "diarrhea"),
  ("mgbawa na-adi mgbu", "painful diarrhea"),
  ("mgbawa ukwu", "severe diarrhea"),
  ("mgbawa na-adi ukwu", "severe diarrhea"),
  ("agba", "vomiting"),
  ("agba di oke", "persistent vomiting"),
  ("agba di ukwu", "severe vomiting"),
  ("agba nwere obara", "bloody vomiting"),
  ("agba na-adi", "vomiting"),
  ("agba na-adi mgbu", "painful vomiting"),
  ("agba ukwu", "severe vomiting"),
  ("agba na-adi ukwu", "severe vomiting"),
  ("adighi ike", "weakness"),
  ("adighi ike nke ukwuu", "severe weakness"),
  ("adighi ike ukwu", "severe weakness"),
  ("ike adighi", "weakness"),
  ("ike na-ebelata", "weakness"),
  ("ike na-adi", "weakness"),
  ("ike ukwu", "severe weakness"),
  ("ike na-adi ukwu", "severe weakness"),
  ("adighi ume", "fatigue"),
  ("adighi ume nke ukwuu", "severe fatigue"),
  ("adighi ume ukwu", "severe fatigue"),
  ("ume na-ebelata", "fatigue"),
  ("ume na-adi", "fatigue"),
  ("ume ukwu", "severe fatigue"),
  ("ume na-adi ukwu", "severe fatigue"),
  ("nsogbu iku ume", "difficulty breathing"),
  ("nsogbu iku ume ukwu", "severe breathing difficulty"),
  ("iku ume na-esi ike", "difficulty breathing"),
  ("iku ume na-esi ike ukwu", "severe breathing difficulty"),
  ("adighi iku ume", "shortness of breath"),
  ("adighi iku ume ukwu", "severe shortness of breath"),
  ("iku ume na-adi ngwa", "fast breathing"),
  ("iku ume na-adi ngwa ukwu", "very fast breathing"),
  ("iku ume di oke", "severe breathing difficulty"),
  ("iku ume di ukwu", "severe breathing difficulty"),
  ("ukwu", "cough"),
  ("ukwu di oke", "persistent cough"),
  ("ukwu di ukwu", "severe cough"),
  ("ukwu nwere obara", "coughing blood"),
  ("ukwu na-adi", "cough"),
  ("ukwu na-adi mgbu", "painful cough"),
  ("ukwu ukwu", "severe cough"),
  ("ukwu na-adi ukwu", "severe cough"),
  ("adighi ama", "unconscious"),
  ("adighi ama nke ukwuu", "severe unconsciousness"),
  ("adighi ama ukwu", "severe unconsciousness"),
  ("adighi mata", "unconscious"),
  ("adighi mata nke ukwuu", "severe unconsciousness"),
  ("adighi mata ukwu", "severe unconsciousness"),
  ("mgba", "convulsions"),
  ("mgba di oke", "severe convulsions"),
  ("mgba di ukwu", "severe convulsions"),
  ("mgba na-adi", "convulsions"),
  ("mgba na-adi ukwu", "severe convulsions"),
  ("adighi mmiri", "dehydration"),
  ("adighi mmiri nke ukwuu", "severe dehydration"),
  ("adighi mmiri ukwu", "severe dehydration"),
  ("onu na-akpo", "dry mouth"),
  ("onu na-akpo nkpo", "dry mouth"),
  ("onu na-adi akpo", "dry mouth"),
  ("adighi mmamiri", "reduced urination"),
  ("adighi mmamiri nke ukwuu", "severely reduced urination"),
  ("adighi mmamiri ukwu", "severely reduced urination"),
  ("mmamiri na-ebelata", "reduced urination"),
  ("mmamiri na-adi", "reduced urination"),
  ("obara na-agba", "bleeding"),
  ("obara na-agba nke ukwuu", "severe bleeding"),
  ("obara na-agba ukwu", "severe bleeding"),
  ("obara site na imi", "nosebleed"),
  ("imi na-agba obara", "nosebleed"),
  ("obara na-adi", "bleeding"),
  ("obara na-adi ukwu", "severe bleeding"),
  ("akpukpo na-akpo", "itching"),
  ("akpukpo na-akpo nkpo", "itching"),
  ("akpukpo na-adi akpo", "itching"),
  ("akpukpo na-adi", "rash"),
  ("akpukpo na-adi nke ukwuu", "severe rash"),
  ("akpukpo na-adi ukwu", "severe rash"),
  ("akpukpo na-agba", "skin peeling"),
  ("akpukpo na-egbu mgbu", "skin abscess"),
  ("akpukpo na-egbu", "skin abscess"),
  ("akpukpo na-egbu ukwu", "severe skin abscess"),
  ("ime", "pregnant"),
  ("nwanyi na-eme ime", "pregnant"),
  ("ime di oke", "pregnancy complications"),
  ("ime di ukwu", "pregnancy complications"),
  ("ime na-adi", "pregnant"),
  ("ime na-adi ukwu", "pregnancy complications"),
  ("di oke", "severe"),
  ("di ukwu", "severe"),
  ("di mfe", "mild"),
  ("di otutu", "many"),
  ("di nkpa", "serious"),
  ("di ike", "severe"),
  ("na-abawanye", "worsening"),
  ("na-adi", "is"),
  ("na-adi ukwu", "is severe"),
  ("kemgbe", "for"),
  ("ihe dika", "about"),
  ("unyahu", "1 day"),
  ("taa", "less than 1 day"),
  ("izu gara aga", "7 days"),
  ("ubochi ole na ole", "few days"),
  ("ubochi otutu", "many days"),
  ("ugbua", "recently"),
  ("mgbe", "when"),
  ("naani", "only"),
  ("ma", "but"),
  ("ka", "than"),
  ("ga", "will")]

/-- Raw entry list of `_get_yoruba_mappings` (source order, duplicates kept). -/
def yoruba_entries : List (String × String) :=
  [("ib√†", "fever"),
  ("ib√† giga", "high fever"),
  ("ib√† to gaju", "high fever"),
  ("ib√† to gaju pupo", "very high fever"),
  ("ara n gbona", "fever"),
  ("ara n gbona pupo", "fever"),
  ("ara n gbona to gaju", "high fever"),
  ("ara n gbona gidigidi", "severe fever"),
  ("ori", "headache"),
  ("ori n dun", "severe headache"),
  ("ori n dun gidigidi", "severe headache"),
  ("ori n dun to gaju", "severe headache"),
  ("ori n dun pupo", "severe headache"),
  ("ori to gaju", "severe headache"),
  ("ori n dun le", "severe headache"),
  ("ikun", "stomach pain"),
  ("ikun n dun", "severe abdominal pain"),
  ("ikun n dun gidigidi", "severe abdominal pain"),
  ("ikun n dun to gaju", "severe abdominal pain"),
  ("ikun n dun pupo", "severe abdominal pain"),
  ("ikun to gaju", "severe stomach pain"),
  ("ikun n dun le", "severe abdominal pain"),
  ("ara n dun", "body aches"),
  ("ara n dun gidigidi", "body pain"),
  ("ara n dun to gaju", "severe body pain"),
  ("ara n dun pupo", "severe body pain"),
  ("ara to gaju", "severe body pain"),
  ("ara n dun le", "severe body pain"),
  ("aya n dun", "chest pain"),
  ("aya n dun gidigidi", "chest pain"),
  ("aya n dun to gaju", "severe chest pain"),
  ("aya n dun pupo", "severe chest pain"),
  ("aya to gaju", "severe chest pain"),
  ("aya n dun le", "severe chest pain"),
  ("eyin n dun", "back pain"),
  ("eyin n dun gidigidi", "back pain"),
  ("eyin n dun to gaju", "severe back pain"),
  ("eyin n dun pupo", "severe back pain"),
  ("eyin to gaju", "severe back pain"),
  ("eyin n dun le", "severe back pain"),
  ("ofun n dun", "sore throat"),
  ("ofun n dun gidigidi", "sore throat"),
  ("ofun n dun to gaju", "severe sore throat"),
  ("ofun n dun pupo", "severe sore throat"),
  ("ofun to gaju", "severe sore throat"),
  ("ofun n dun le", "severe sore throat"),
  ("egbon n dun", "joint pain"),
  ("egbon n dun gidigidi", "joint pain"),
  ("egbon n dun to gaju", "severe joint pain"),
  ("egbon n dun pupo", "severe joint pain"),
  ("egbon to gaju", "severe joint pain"),
  ("egbon n dun le", "severe joint pain"),
  ("√¨t·ªç", "diarrhea"),
  ("√¨t·ªç to gaju", "severe diarrhea"),
  ("√¨t·ªç to gaju pupo", "very severe diarrhea"),
  ("√¨t·ªç to ni eje", "bloody diarrhea"),
  ("√¨t·ªç n wa", "diarrhea"),
  ("√¨t·ªç n wa gidigidi", "severe diarrhea"),
  ("√¨t·ªç pupo", "severe diarrhea"),
  ("√¨t·ªç n wa le", "severe diarrhea"),
  ("ik·ªç", "vomiting"),
  ("ik·ªç to gaju", "persistent vomiting"),
  ("ik·ªç to gaju pupo", "very severe vomiting"),
  ("ik·ªç to ni eje", "bloody vomiting"),
  ("ik·ªç n wa", "nausea"),
  ("ik·ªç n wa gidigidi", "nausea"),
  ("ik·ªç pupo", "severe vomiting"),
  ("ik·ªç n wa le", "severe vomiting"),
  ("alailera", "weakness"),
  ("alailera to gaju", "severe weakness"),
  ("alailera to gaju pupo", "very severe weakness"),
  ("alailera pupo", "severe weakness"),
  ("alailera n wa", "weakness"),
  ("alailera n wa gidigidi", "severe weakness"),
  ("alailera n wa le", "severe weakness"),
  ("agbara n dinku", "weakness"),
  ("agbara n dinku to gaju", "severe weakness"),
  ("agbara n dinku pupo", "severe weakness"),
  ("agbara n wa", "weakness"),
  ("agbara n wa gidigidi", "severe weakness"),
  ("agbara n wa le", "severe weakness"),
  ("ipalara emi", "difficulty breathing"),
  ("ipalara emi to gaju", "severe breathing difficulty"),
  ("ipalara emi pupo", "severe breathing difficulty"),
  ("emi n le", "difficulty breathing"),
  ("emi n le to gaju", "severe breathing difficulty"),
  ("emi n le pupo", "severe breathing difficulty"),
  ("emi n le gidigidi", "severe breathing difficulty"),
  ("emi n yara", "fast breathing"),
  ("emi n yara to gaju", "very fast breathing"),
  ("emi n yara pupo", "very fast breathing"),
  ("emi n le to gaju", "severe breathing difficulty"),
  ("ik·ªç", "cough"),
  ("ik·ªç to gaju", "persistent cough"),
  ("ik·ªç to gaju pupo", "very severe cough"),
  ("ik·ªç to ni eje", "coughing blood"),
  ("ik·ªç n wa", "dry cough"),
  ("ik·ªç n wa gidigidi", "severe cough"),
  ("ik·ªç pupo", "severe cough"),
  ("ik·ªç n wa le", "severe cough"),
  ("ailera", "unconscious"),
  ("ailera to gaju", "severe unconsciousness"),
  ("ailera to gaju pupo", "very severe unconsciousness"),
  ("ailera pupo", "severe unconsciousness"),
  ("ailera n wa", "unconscious"),
  ("ailera n wa gidigidi", "severe unconsciousness"),
  ("ailera n wa le", "severe unconsciousness"),
  ("gbigbe", "convulsions"),
  ("gbigbe to gaju", "severe convulsions"),
  ("gbigbe to gaju pupo", "very severe convulsions"),
  ("gbigbe pupo", "severe convulsions"),
  ("gbigbe n wa", "convulsions"),
  ("gbigbe n wa gidigidi", "severe convulsions"),
  ("gbigbe n wa le", "severe convulsions"),
  ("ailera omi", "dehydration"),
  ("ailera omi to gaju", "severe dehydration"),
  ("ailera omi to gaju pupo", "very severe dehydration"),
  ("ailera omi pupo", "severe dehydration"),
  ("enu n gbe", "dry mouth"),
  ("enu n gbe gidigidi", "dry mouth"),
  ("enu n gbe to gaju", "very dry mouth"),
  ("enu n gbe pupo", "very dry mouth"),
  ("ailera isin", "reduced urination"),
  ("ailera isin to gaju", "severely reduced urination"),
  ("ailera isin pupo", "severely reduced urination"),
  ("isin n dinku", "reduced urination"),
  ("isin n dinku to gaju", "severely reduced urination"),
  ("isin n dinku pupo", "severely reduced urination"),
  ("eje n ja", "bleeding"),
  ("eje n ja to gaju", "severe bleeding"),
  ("eje n ja to gaju pupo", "very severe bleeding"),
  ("eje n ja pupo", "severe bleeding"),
  ("eje lati inu imu", "nosebleed"),
  ("imu n ja eje", "nosebleed"),
  ("eje n ja le", "severe bleeding"),
  ("ara n ka", "itching"),
  ("ara n ka gidigidi", "itching"),
  ("ara n ka to gaju", "severe itching"),
  ("ara n ka pupo", "severe itching"),
  ("ara n yi", "rash"),
  ("ara n yi to gaju", "severe rash"),
  ("ara n yi pupo", "severe rash"),
  ("ara n bo", "skin peeling"),
  ("ara n bo to gaju", "severe skin peeling"),
  ("ara n bo pupo", "severe skin peeling"),
  ("ara n dun", "skin abscess"),
  ("ara n dun gidigidi", "skin abscess"),
  ("ara n dun to gaju", "severe skin abscess"),
  ("ara n dun pupo", "severe skin abscess"),
  ("oyun", "pregnant"),
  ("obinrin n oyun", "pregnant"),
  ("oyun to gaju", "pregnancy complications"),
  ("oyun to gaju pupo", "severe pregnancy complications"),
  ("oyun pupo", "pregnancy complications"),
  ("oyun n wa", "pregnant"),
  ("oyun n wa le", "pregnancy complications"),
  ("to gaju", "severe"),
  ("to gaju pupo", "very severe"),
  ("toto", "mild"),
  ("pupo", "many"),
  ("pupo pupo", "very many"),
  ("pataki", "serious"),
  ("le", "severe"),
  ("n p·ªç", "worsening"),
  ("n wa", "is"),
  ("n wa le", "is severe"),
  ("lati", "for"),
  ("nipa", "about"),
  ("ana", "1 day"),
  ("oni", "less than 1 day"),
  ("ose ti koja", "7 days"),
  ("ojo die", "few days"),
  ("ojo pupo", "many days"),
  ("bayi", "recently"),
  ("koja", "past"),
  ("die", "few"),
  ("pupo", "many")]


/-- The translator field `self.languages`: language id → lexicon (vernacular → English). -/
def languages : Lang → List (String × String)
  | .pidgin => pythonDict pidgin_entries
  | .hausa => pythonDict hausa_entries
  | .igbo => pythonDict igbo_entries
  | .yoruba => pythonDict yoruba_entries

/-! ## Symptom normalization (`_translate_with_language`, `translate_symptoms`) -/

/-- Comparison used by `sorted(mappings.items(), key=lambda x: len(x[0]),
reverse=True)`: `a` may come before `b` when `a`'s phrase is at least as
long. -/
def lenDescRel (a b : String × String) : Prop := b.1.length ≤ a.1.length

instance : DecidableRel lenDescRel := fun a b => Nat.decLe b.1.length a.1.length

instance : IsTotal (String × String) lenDescRel :=
  ⟨fun a b => Nat.le_total b.1.length a.1.length⟩

instance : IsTrans (String × String) lenDescRel :=
  ⟨fun _ _ _ h1 h2 => Nat.le_trans h2 h1⟩

/-- Embedding of `sorted(mappings.items(), key=lambda x: len(x[0]), reverse=True)`:
stable sort by phrase length, longest first (Python's `sorted` is stable;
so is insertion sort). -/
def sortPhrases (mappings : List (String × String)) : List (String × String) :=
  List.insertionSort lenDescRel mappings

/-- Replace the first case-insensitive occurrence of the (lowercase)
phrase `pl` by `el`, as `re.compile(re.escape(phrase), re.IGNORECASE)
.sub(english, text, count=1)`. -/
def replaceFirstCI (pl el : List Char) : List Char → List Char
  | [] => []
  | c :: rest =>
    if pl.isPrefixOf ((c :: rest).map Char.toLower) then
      el ++ (c :: rest).drop pl.length
    else c :: replaceFirstCI pl el rest

/-- One pass of the substitution loop of `_translate_with_language` over
the sorted phrase list.  The source records each substitution as a
formatted string; only the emptiness of that record is ever consumed, so
it is embedded as the list of substituted (phrase, english) pairs. -/
def applyPhrases (sorted : List (String × String)) (text : String) :
    String × List (String × String) :=
  sorted.foldl
    (fun acc pe =>
      if strContainsSub (strToLower acc.1) pe.1 then
        (String.mk (replaceFirstCI pe.1.toList pe.2.toList acc.1.toList),
         acc.2 ++ [pe])
      else acc)
    (text, [])

/-- Embedding of `EnhancedMultilingualTranslator._translate_with_language` for a
lexicon given as an explicit mapping. -/
def translate_with_mapping (mappings : List (String × String))
    (text : String) : String × List (String × String) :=
  applyPhrases (sortPhrases mappings) text

/-- Embedding of `_translate_with_language` on one of the configured languages. -/
def translate_with_language (text : String) (language : Lang) :
    String × List (String × String) :=
  translate_with_mapping (languages language) text

/-- Per-symptom step of `translate_symptoms`: the translated phrase and
whether any substitution was made (`if changes:`). -/
def translate_one (s : String) : String × Bool :=
  match detect_language s with
  | some l =>
    let r := translate_with_language s l
    (r.1, !r.2.isEmpty)
  | none => (s, false)

/-- Embedding of `EnhancedMultilingualTranslator.translate_symptoms`: translated list
(in order) plus the translation map (a dict keyed by the original full
symptom string, only for symptoms where a substitution occurred). -/
def translate_symptoms (symptoms : List String) :
    List String × List (String × String) :=
  let per := symptoms.map (fun s => (s, translate_one s))
  (per.map (fun x => x.2.1),
   pythonDict (per.filterMap (fun x =>
     if x.2.2 then some (x.1, x.2.1) else none)))


/-! ## Fallback classifier (`AITriageServiceV3.fallback_triage`) -/

/-- Embedding of `AITriageServiceV3.CRITICAL_KEYWORDS`. -/
def CRITICAL_KEYWORDS : List String :=
  ["convulsion", "seizure", "unconscious", "unresponsive", "not breathing",
   "severe bleeding", "blue lips", "cyanosis", "shock", "stiff neck",
   "unable to drink", "gasping", "very weak pulse"]

/-- Embedding of `AITriageServiceV3.URGENT_KEYWORDS`. -/
def URGENT_KEYWORDS : List String :=
  ["high fever", "very hot", "difficulty breathing", "fast breathing",
   "severe pain", "bloody stool", "bloody diarrhea", "persistent vomiting",
   "severe dehydration", "sunken eyes", "suspected meningitis"]

/-- Patient input, per the data model the pipeline consults: `age` and
`symptoms` (absent keys are `none`); the remaining fields (gender,
duration, vital signs, history) only feed the prompt text and are not
consulted by the modelled control flow. -/
structure Patient where
  age : Option Int := none
  symptoms : Option (List String) := none
deriving DecidableEq, Repr

/-- The fields of the result dictionaries of `analyze_patient` /
`fallback_triage` that the verified properties talk about.  Free-text
payloads that are merely copied around (conditions, tests, advice, …)
are omitted. -/
structure TriageResult where
  triage_level : Int
  triage_label : String
  error : Option String := none
  message : Option String := none
  ai_failed : Bool := false
  ai_error : Option String := none
  attempt : Option Nat := none
  attempts : Option Nat := none
  method : Option String := none
  confidencePct : Option Nat := none
  immediate_actions : List String := []
  referral_needed : Bool := false
  referral_reason : String := ""
deriving DecidableEq, Repr

/-- Embedding of `' '.join([str(s).lower() for s in symptoms])`. -/
def symptomsTextOf (symptoms : List String) : String :=
  String.intercalate " " (symptoms.map strToLower)

/-- Embedding of `AITriageServiceV3.fallback_triage`. -/
def fallback_triage (patient_data : Patient) : TriageResult :=
  let symptoms := patient_data.symptoms.getD []
  let age := patient_data.age.getD 30
  let symptoms_text := symptomsTextOf symptoms
  let is_critical := CRITICAL_KEYWORDS.any (fun kw => strContainsSub symptoms_text kw)
  let is_urgent := URGENT_KEYWORDS.any (fun kw => strContainsSub symptoms_text kw)
  let branch : Int × String × List String × Bool × String :=
    if is_critical then
      (1, "Critical",
       ["Immediate medical attention required", "Prepare for emergency care"],
       true, "Critical emergency signs detected")
    else if is_urgent || (decide (age < 5) && strContainsSub symptoms_text "fever") then
      (2, "Urgent", ["Assess within 1 hour", "Check vital signs"], false, "")
    else if strContainsSub symptoms_text "fever" || strContainsSub symptoms_text "pain" then
      (3, "Standard",
       ["Standard assessment", "Basic diagnostic tests if needed"], false, "")
    else
      (4, "Minor", ["Routine care", "Health education"], false, "")
  { triage_level := branch.1,
    triage_label := branch.2.1,
    confidencePct := some 60,
    method := some "rule-based-fallback",
    immediate_actions := branch.2.2.1,
    referral_needed := branch.2.2.2.1,
    referral_reason := branch.2.2.2.2 }

/-! ## Reasoning orchestrator (`analyze_patient`)

The external reasoning call is opaque: per attempt it either returns a
text that parses (or fails to parse) within the timeout, raises within
the timeout, or runs past the timeout — in which case its eventual
outcome (`late`) exists but, in the source, is only ever written into
the abandoned per-call `result_container` of `_run_with_timeout`. -/

/-- Projection of a parsed reasoning response: the fields the service
reads.  `none` = key absent from the parsed JSON object. -/
structure AIResult where
  triage_level : Option Int := none
  triage_label : Option String := none
  referral_needed : Bool := false
  referral_reason : String := ""
deriving DecidableEq, Repr

/-- Embedding of `AITriageServiceV3._validate_result`: required keys present and
`triage_level in [1, 2, 3, 4]`. -/
def validate_result (result : AIResult) : Bool :=
  match result.triage_level, result.triage_label with
  | some l, some _ => decide (l = 1) || decide (l = 2) || decide (l = 3) || decide (l = 4)
  | _, _ => false

/-- Behaviour of one external reasoning call. -/
inductive CallBehaviour where
  /-- Call returned within the timeout; payload is the outcome of
  `_parse_response` on its text (`.error` = unparsable JSON payload). -/
  | ok (parsed : Except String AIResult)
  /-- Call raised within the timeout; the exception is re-raised. -/
  | raised (msg : String)
  /-- Call exceeded the timeout.  `_run_with_timeout` raises
  `TimeoutError` at the boundary; `late` is the call's eventual outcome,
  which the source only ever stores into the abandoned thread-local
  container. -/
  | timedOut (late : Except String AIResult)
deriving Repr

/-- Outcome of one attempt of the `try:` block of `analyze_patient`
(call with timeout, then parse, then validate): the validated result or
the raised error's message. -/
def attemptOutcome (timeout : Nat) (b : CallBehaviour) : Except String AIResult :=
  match b with
  | .timedOut _ =>
    .error ("Operation exceeded " ++ toString timeout ++ "s timeout")
  | .raised msg => .error msg
  | .ok (.error e) => .error ("Invalid JSON response from AI: " ++ e)
  | .ok (.ok result) =>
    if validate_result result then .ok result
    else .error "AI response missing required fields"

/-- Orchestrator configuration (`timeout`, `max_retries`), read once at
construction. -/
structure Config where
  timeout : Nat := 10
  max_retries : Nat := 2
deriving DecidableEq, Repr

/-- Success-path result: the parsed response plus pipeline metadata. -/
def successResult (r : AIResult) (attempt : Nat) : TriageResult :=
  { triage_level := r.triage_level.getD 0,
    triage_label := r.triage_label.getD "",
    referral_needed := r.referral_needed,
    referral_reason := r.referral_reason,
    attempt := some (attempt + 1) }

/-- The retry loop `for attempt in range(self.max_retries + 1)` of
`analyze_patient`, from attempt number `attempt` with `fuel` attempts
remaining after the current one.  Returns the result together with the
number of calls made, the backoff sleeps performed (milliseconds, in
order: `time.sleep(0.5 * (attempt + 1))`), and whether the fallback
classifier was invoked. -/
def analyzeLoop (cfg : Config) (oracle : Nat → CallBehaviour)
    (use_fallback_on_error : Bool) (fallbackVerdict : TriageResult) :
    Nat → Nat → TriageResult × Nat × List Nat × Bool
  | attempt, fuel =>
    match attemptOutcome cfg.timeout (oracle attempt) with
    | .ok r => (successResult r attempt, 1, [], false)
    | .error msg =>
      match fuel with
      | 0 =>
        if use_fallback_on_error then
          ({ fallbackVerdict with ai_failed := true, ai_error := some msg },
           1, [], true)
        else
          ({ triage_level := 3, triage_label := "Standard",
             error := some msg,
             message := some "AI analysis failed. Default to standard triage for safety.",
             attempts := some (attempt + 1) },
           1, [], false)
      | fuel2 + 1 =>
        let rest := analyzeLoop cfg oracle use_fallback_on_error fallbackVerdict
          (attempt + 1) fuel2
        (rest.1, rest.2.1 + 1, 500 * (attempt + 1) :: rest.2.2.1, rest.2.2.2)

/-- Python falsiness of `patient_data.get('symptoms')`. -/
def symptomsFalsy (p : Patient) : Bool :=
  match p.symptoms with
  | none => true
  | some [] => true
  | some (_ :: _) => false

/-- Python falsiness of `patient_data.get('age')`. -/
def ageFalsy (p : Patient) : Bool :=
  match p.age with
  | none => true
  | some a => a == 0

/-- The patient with symptoms replaced by their translations
(`patient_data_translated`). -/
def translatedPatient (p : Patient) : Patient :=
  { p with symptoms := some (translate_symptoms (p.symptoms.getD [])).1 }

/-- Execution trace of one `analyze_patient` request: number of external
reasoning calls, backoff sleeps (ms, in order), whether the fallback
classifier ran, and whether symptom translation ran. -/
structure Trace where
  aiCalls : Nat
  sleepsMs : List Nat
  fallbackInvoked : Bool
  translationDone : Bool
deriving DecidableEq, Repr

/-- Embedding of `AITriageServiceV3.analyze_patient`, with the external reasoning
capability's behaviour on attempt `k` given by `oracle k`. -/
def analyze_patient (cfg : Config) (patient_data : Patient)
    (oracle : Nat → CallBehaviour) (use_fallback_on_error : Bool := true) :
    TriageResult × Trace :=
  if symptomsFalsy patient_data || ageFalsy patient_data then
    ({ triage_level := 3, triage_label := "Standard",
       error := some "Missing required fields: symptoms and age",
       message := some "Insufficient information. Default to standard triage." },
     { aiCalls := 0, sleepsMs := [], fallbackInvoked := false,
       translationDone := false })
  else
    let pT := translatedPatient patient_data
    let r := analyzeLoop cfg oracle use_fallback_on_error (fallback_triage pT)
      0 cfg.max_retries
    (r.1,
     { aiCalls := r.2.1, sleepsMs := r.2.2.1, fallbackInvoked := r.2.2.2,
       translationDone := true })


/-! ## Auxiliary predicates for the verified properties -/

/-- The triage-level range invariant: level is one of 1, 2, 3, 4. -/
def levelInRange (l : Int) : Prop := l = 1 ∨ l = 2 ∨ l = 3 ∨ l = 4

instance (l : Int) : Decidable (levelInRange l) := by
  unfold levelInRange; infer_instance

/-- Attempt `k` of the reasoning call fails (raises, times out, is
unparsable, or fails validation). -/
def attemptFails (cfg : Config) (oracle : Nat → CallBehaviour) (k : Nat) : Prop :=
  ∃ e, attemptOutcome cfg.timeout (oracle k) = .error e

/-- The error message of attempt `k` (meaningful when the attempt fails). -/
def attemptError (cfg : Config) (oracle : Nat → CallBehaviour) (k : Nat) : String :=
  match attemptOutcome cfg.timeout (oracle k) with
  | .error e => e
  | .ok _ => ""

/-- Two call behaviours that agree except possibly in the eventual
outcome of a timed-out call (which the source abandons). -/
def sameModuloLate : CallBehaviour → CallBehaviour → Prop
  | .timedOut _, .timedOut _ => True
  | a, b => a = b

/-! ## Helper lemmas -/

theorem fallback_level_mem (p : Patient) :
    levelInRange (fallback_triage p).triage_level := by
  unfold fallback_triage levelInRange
  dsimp only
  split_ifs <;> simp

theorem fallback_referral_iff (p : Patient) :
    ((fallback_triage p).referral_needed ↔ (fallback_triage p).triage_level = 1)
    ∧ ((fallback_triage p).referral_needed = false →
        (fallback_triage p).referral_reason = "") := by
  unfold fallback_triage
  dsimp only
  split_ifs <;> simp

theorem validate_result_spec (r : AIResult) :
    validate_result r = true ↔
      ∃ l, r.triage_level = some l ∧ levelInRange l ∧ (r.triage_label).isSome := by
  unfold validate_result levelInRange
  rcases hl : r.triage_level with _ | l
  · simp
  · rcases hb : r.triage_label with _ | b
    · simp
    · simp
      tauto

theorem attemptOutcome_ok (t : Nat) (b : CallBehaviour) (r : AIResult)
    (h : attemptOutcome t b = .ok r) : validate_result r = true := by
  rcases b with p | m | late
  · rcases p with e | a
    · simp [attemptOutcome] at h
    · simp only [attemptOutcome] at h
      split_ifs at h with hv
      all_goals simp_all
  · simp [attemptOutcome] at h
  · simp [attemptOutcome] at h

theorem analyzeLoop_level_mem (cfg : Config) (oracle : Nat → CallBehaviour)
    (fb : TriageResult) (hfb : levelInRange fb.triage_level) :
    ∀ fuel attempt,
      levelInRange (analyzeLoop cfg oracle true fb attempt fuel).1.triage_level := by
  intro fuel
  induction fuel with
  | zero =>
    intro attempt
    rw [analyzeLoop]
    rcases h : attemptOutcome cfg.timeout (oracle attempt) with e | r
    · simpa using hfb
    · rcases (validate_result_spec r).mp (attemptOutcome_ok _ _ _ h) with ⟨l, hl, hmem, _⟩
      simpa [successResult, hl] using hmem
  | succ fuel2 ih =>
    intro attempt
    rw [analyzeLoop]
    rcases h : attemptOutcome cfg.timeout (oracle attempt) with e | r
    · simpa using ih (attempt + 1)
    · rcases (validate_result_spec r).mp (attemptOutcome_ok _ _ _ h) with ⟨l, hl, hmem, _⟩
      simpa [successResult, hl] using hmem

theorem analyzeLoop_all_fail (cfg : Config) (oracle : Nat → CallBehaviour)
    (fb : TriageResult) :
    ∀ fuel attempt,
      (∀ k, k ≤ attempt + fuel → attemptFails cfg oracle k) →
      analyzeLoop cfg oracle true fb attempt fuel =
        ({ fb with
            ai_failed := true,
            ai_error := some (attemptError cfg oracle (attempt + fuel)) },
         fuel + 1,
         (List.range fuel).map (fun i => 500 * (attempt + 1 + i)),
         true) := by
  intro fuel
  induction fuel with
  | zero =>
    intro attempt h
    rcases h attempt (by omega) with ⟨e, he⟩
    rw [analyzeLoop, he]
    simp [attemptError, he]
  | succ fuel2 ih =>
    intro attempt h
    rcases h attempt (by omega) with ⟨e, he⟩
    rw [analyzeLoop, he]
    have hrec := ih (attempt + 1) (fun k hk => h k (by omega))
    simp only [hrec]
    refine Prod.ext ?_ (Prod.ext rfl (Prod.ext ?_ rfl))
    · have : attempt + 1 + fuel2 = attempt + (fuel2 + 1) := by omega
      simp [this]
    · show 500 * (attempt + 1) :: _ = _
      rw [List.range_succ_eq_map]
      simp only [List.map_cons, List.map_map]
      refine congrArg₂ _ (by omega) (List.map_congr_left ?_)
      intro i _
      simp [Function.comp]
      omega

theorem attemptOutcome_congr (t : Nat) (a b : CallBehaviour)
    (h : sameModuloLate a b) : attemptOutcome t a = attemptOutcome t b := by
  rcases a with p | m | late <;> rcases b with p2 | m2 | late2 <;>
    simp_all [sameModuloLate, attemptOutcome]

theorem analyzeLoop_congr (cfg : Config) (o1 o2 : Nat → CallBehaviour)
    (u : Bool) (fb : TriageResult) (h : ∀ n, sameModuloLate (o1 n) (o2 n)) :
    ∀ fuel attempt,
      analyzeLoop cfg o1 u fb attempt fuel = analyzeLoop cfg o2 u fb attempt fuel := by
  intro fuel
  induction fuel with
  | zero =>
    intro attempt
    rw [analyzeLoop, analyzeLoop, attemptOutcome_congr cfg.timeout _ _ (h attempt)]
  | succ fuel2 ih =>
    intro attempt
    rw [analyzeLoop, analyzeLoop, attemptOutcome_congr cfg.timeout _ _ (h attempt)]
    rcases attemptOutcome cfg.timeout (o2 attempt) with e | r
    · simp [ih (attempt + 1)]
    · rfl

theorem language_score_nonneg (t : String) (l : Lang) : 0 ≤ language_score t l := by
  unfold language_score
  positivity

theorem countPattern_empty (p : List String) : countPattern p "" = 0 := rfl

/-- The score doubled, as a natural number: comparisons of scores agree
with comparisons of doubled scores, and the latter are computable. -/
def scoreX2 (t : String) (l : Lang) : ℕ :=
  2 * primary_matches t l + context_matches t l

theorem language_score_eq_scoreX2 (t : String) (l : Lang) :
    language_score t l = (scoreX2 t l : ℚ) / 2 := by
  unfold language_score scoreX2
  push_cast
  ring

theorem language_score_lt_iff (t : String) (l1 l2 : Lang) :
    language_score t l1 < language_score t l2 ↔ scoreX2 t l1 < scoreX2 t l2 := by
  rw [language_score_eq_scoreX2, language_score_eq_scoreX2,
    div_lt_div_iff_of_pos_right (by norm_num)]
  exact_mod_cast Iff.rfl

theorem language_score_pos_iff (t : String) (l : Lang) :
    0 < language_score t l ↔ 0 < scoreX2 t l := by
  rw [language_score_eq_scoreX2]
  constructor
  · intro h
    rcases Nat.eq_zero_or_pos (scoreX2 t l) with h0 | h0
    · rw [h0] at h
      norm_num at h
    · exact h0
  · intro h
    have hq : (0 : ℚ) < (scoreX2 t l : ℚ) := by exact_mod_cast h
    exact div_pos hq (by norm_num)

theorem language_score_empty (l : Lang) : language_score "" l = 0 := by
  have hp : primary_matches "" l = 0 := by
    cases l <;> rfl
  have hc : context_matches "" l = 0 := by
    cases l <;> rfl
  simp [language_score, hp, hc]

theorem bestLang_spec (t : String) :
    (∀ l, language_score t l ≤ language_score t (bestLang t)) ∧
    (∀ l, langIdx l < langIdx (bestLang t) →
      language_score t l < language_score t (bestLang t)) := by
  unfold bestLang
  dsimp only
  split_ifs <;>
    refine ⟨fun l => ?_, fun l hl => ?_⟩ <;>
    cases l <;> simp_all [langIdx] <;> linarith

/-! ## The claims -/

/-- C1.  Under default configuration (fallback enabled), every result of
`analyze_patient` carries `triage_level ∈ {1,2,3,4}`, whatever the
patient input and whatever the external reasoning call does on each
attempt; and a parsed response whose `triage_level` lies outside
`{1,2,3,4}` fails `_validate_result` (hence triggers retry or fallback
rather than reaching the caller). -/
theorem C1_triage_level_range (cfg : Config) (p : Patient)
    (oracle : Nat → CallBehaviour) :
    levelInRange (analyze_patient cfg p oracle true).1.triage_level ∧
    (∀ r : AIResult, ∀ l : Int, r.triage_level = some l → ¬ levelInRange l →
      validate_result r = false) := by
  constructor
  · unfold analyze_patient
    split_ifs with h
    · simp [levelInRange]
    · exact analyzeLoop_level_mem cfg oracle _
        (fallback_level_mem (translatedPatient p)) cfg.max_retries 0
  · intro r l hl hnot
    cases hv : validate_result r
    · rfl
    · exfalso
      rcases (validate_result_spec r).mp hv with ⟨l2, hl2, hmem, _⟩
      rw [hl] at hl2
      injection hl2 with h2
      exact hnot (by rw [h2]; exact hmem)

/-- C1 witness: a concrete run (all attempts raise) yields a level in
range, and a concrete parsed response with `triage_level = 7` fails
validation. -/
theorem C1_triage_level_range_witness :
    levelInRange (analyze_patient {} { age := some 30, symptoms := some ["fever"] }
      (fun _ => .raised "network down") true).1.triage_level ∧
    validate_result { triage_level := some 7, triage_label := some "Critical" } = false :=
  ⟨(C1_triage_level_range {} _ _).1,
   (C1_triage_level_range {} { age := some 30, symptoms := some ["fever"] }
      (fun _ => .raised "network down")).2 _ 7 rfl (by decide)⟩

/-- C2.  If the lowercase space-joined symptom text contains any critical
keyword, `fallback_triage` returns level 1 with `referral_needed = true`,
regardless of which urgent/standard keywords also occur (the critical
check is strictly first). -/
theorem C2_critical_dominance (p : Patient)
    (h : CRITICAL_KEYWORDS.any
      (fun kw => strContainsSub (symptomsTextOf (p.symptoms.getD [])) kw) = true) :
    (fallback_triage p).triage_level = 1 ∧
    (fallback_triage p).referral_needed = true := by
  unfold fallback_triage
  dsimp only
  rw [if_pos h]
  exact ⟨rfl, rfl⟩

/-- C2 witness: a symptom list matching a critical keyword
("unconscious") and an urgent keyword ("high fever") is still critical. -/
theorem C2_critical_dominance_witness :
    (fallback_triage
      { age := some 30, symptoms := some ["unconscious", "high fever"] }).triage_level = 1 ∧
    (fallback_triage
      { age := some 30, symptoms := some ["unconscious", "high fever"] }).referral_needed = true :=
  C2_critical_dominance _ (by decide)

/-- C3.  If every one of the `max_retries + 1` attempts fails, then
`analyze_patient` with fallback enabled returns the fallback verdict on
the translated symptoms annotated with `ai_failed = true` and the last
attempt's error message; exactly `max_retries + 1` calls are made, and
each failed non-final attempt `k` (0-based) is followed by a backoff
sleep of `0.5 s × (k + 1)` (recorded in milliseconds). -/
theorem C3_fallback_on_exhaustion (cfg : Config) (p : Patient)
    (oracle : Nat → CallBehaviour)
    (hp : (symptomsFalsy p || ageFalsy p) = false)
    (hfail : ∀ k, k ≤ cfg.max_retries → attemptFails cfg oracle k) :
    analyze_patient cfg p oracle true =
      ({ fallback_triage (translatedPatient p) with
         ai_failed := true,
         ai_error := some (attemptError cfg oracle cfg.max_retries) },
       { aiCalls := cfg.max_retries + 1,
         sleepsMs := (List.range cfg.max_retries).map (fun k => 500 * (k + 1)),
         fallbackInvoked := true, translationDone := true }) := by
  unfold analyze_patient
  rw [if_neg (by simp [hp])]
  dsimp only
  rw [analyzeLoop_all_fail cfg oracle _ cfg.max_retries 0
    (fun k hk => hfail k (by omega))]
  have h1 : 0 + cfg.max_retries = cfg.max_retries := by omega
  have h2 : (List.range cfg.max_retries).map (fun i => 500 * (0 + 1 + i)) =
      (List.range cfg.max_retries).map (fun k => 500 * (k + 1)) :=
    List.map_congr_left (fun i _ => by omega)
  rw [h1, h2]

/-- C3 witness: `max_retries = 2`, every attempt raises; three calls,
sleeps 500 ms and 1000 ms, fallback verdict annotated with the error. -/
theorem C3_fallback_on_exhaustion_witness :
    analyze_patient { timeout := 10, max_retries := 2 }
        { age := some 30, symptoms := some ["fever"] }
        (fun _ => .raised "boom") true =
      ({ fallback_triage (translatedPatient
            { age := some 30, symptoms := some ["fever"] }) with
         ai_failed := true,
         ai_error := some (attemptError { timeout := 10, max_retries := 2 }
            (fun _ => .raised "boom") 2) },
       { aiCalls := 3, sleepsMs := [500, 1000],
         fallbackInvoked := true, translationDone := true }) := by
  have h := C3_fallback_on_exhaustion { timeout := 10, max_retries := 2 }
    { age := some 30, symptoms := some ["fever"] } (fun _ => .raised "boom")
    (by decide) (fun k _ => ⟨"boom", rfl⟩)
  simpa using h

/-- C4.  A patient input with missing or empty symptoms, or missing age,
short-circuits: level-3 "Standard" verdict with the
insufficient-information message, zero reasoning calls, no fallback
invocation and no translation. -/
theorem C4_insufficient_input_short_circuit (cfg : Config) (p : Patient)
    (oracle : Nat → CallBehaviour) (u : Bool)
    (h : p.symptoms = none ∨ p.symptoms = some [] ∨ p.age = none) :
    analyze_patient cfg p oracle u =
      ({ triage_level := 3, triage_label := "Standard",
         error := some "Missing required fields: symptoms and age",
         message := some "Insufficient information. Default to standard triage." },
       { aiCalls := 0, sleepsMs := [], fallbackInvoked := false,
         translationDone := false }) := by
  have hb : (symptomsFalsy p || ageFalsy p) = true := by
    rcases h with h | h | h <;> simp [symptomsFalsy, ageFalsy, h]
  unfold analyze_patient
  rw [if_pos hb]

/-- C4 witness: empty symptom list. -/
theorem C4_insufficient_input_short_circuit_witness :
    analyze_patient {} { age := some 25, symptoms := some [] }
        (fun _ => .raised "never called") true =
      ({ triage_level := 3, triage_label := "Standard",
         error := some "Missing required fields: symptoms and age",
         message := some "Insufficient information. Default to standard triage." },
       { aiCalls := 0, sleepsMs := [], fallbackInvoked := false,
         translationDone := false }) :=
  C4_insufficient_input_short_circuit {} _ _ true (Or.inr (Or.inl rfl))

/-- C9.  `age = 0` is falsy in the input check, so an explicitly supplied
age of 0 triggers the same insufficient-information short-circuit: level
3 "Standard", no translation, no reasoning call, no fallback. -/
theorem C9_age_zero_short_circuit (cfg : Config) (p : Patient)
    (oracle : Nat → CallBehaviour) (u : Bool) (h : p.age = some 0) :
    analyze_patient cfg p oracle u =
      ({ triage_level := 3, triage_label := "Standard",
         error := some "Missing required fields: symptoms and age",
         message := some "Insufficient information. Default to standard triage." },
       { aiCalls := 0, sleepsMs := [], fallbackInvoked := false,
         translationDone := false }) := by
  have hb : (symptomsFalsy p || ageFalsy p) = true := by
    simp [ageFalsy, h]
  unfold analyze_patient
  rw [if_pos hb]

/-- C9 witness: age 0 with a non-empty symptom list short-circuits. -/
theorem C9_age_zero_short_circuit_witness :
    analyze_patient {} { age := some 0, symptoms := some ["fever", "cough"] }
        (fun _ => .raised "never called") true =
      ({ triage_level := 3, triage_label := "Standard",
         error := some "Missing required fields: symptoms and age",
         message := some "Insufficient information. Default to standard triage." },
       { aiCalls := 0, sleepsMs := [], fallbackInvoked := false,
         translationDone := false }) :=
  C9_age_zero_short_circuit {} _ _ true rfl

/-- C10.  In every fallback verdict, a referral is requested exactly when
the critical branch fired (`referral_needed ↔ triage_level = 1`), and
non-referred verdicts carry an empty referral reason. -/
theorem C10_referral_iff_critical (p : Patient) :
    ((fallback_triage p).referral_needed ↔ (fallback_triage p).triage_level = 1)
    ∧ ((fallback_triage p).referral_needed = false →
        (fallback_triage p).referral_reason = "") :=
  fallback_referral_iff p

/-- C10 witness: an urgent verdict (level 2) with no referral and empty
reason; applying the theorem at a concrete patient. -/
theorem C10_referral_iff_critical_witness :
    ((fallback_triage { age := some 3, symptoms := some ["fever"] }).referral_needed
      = false) ∧
    (fallback_triage { age := some 3, symptoms := some ["fever"] }).referral_reason
      = "" := by
  have h := C10_referral_iff_critical { age := some 3, symptoms := some ["fever"] }
  have hn : (fallback_triage
      { age := some 3, symptoms := some ["fever"] }).referral_needed = false := by
    decide
  exact ⟨hn, h.2 hn⟩


/-! ## Nat-level evaluation of the detector -/

/-- The function `bestLang` computed on doubled scores (order-isomorphic, and
kernel-computable). -/
def bestLangX2 (t : String) : Lang :=
  let b1 : Lang := .pidgin
  let b2 : Lang := if scoreX2 t .hausa > scoreX2 t b1 then .hausa else b1
  let b3 : Lang := if scoreX2 t .igbo > scoreX2 t b2 then .igbo else b2
  if scoreX2 t .yoruba > scoreX2 t b3 then .yoruba else b3

theorem bestLang_eq_bestLangX2 (t : String) : bestLang t = bestLangX2 t := by
  have hiff : ∀ a b : Lang,
      language_score t b < language_score t a ↔ scoreX2 t b < scoreX2 t a :=
    fun a b => language_score_lt_iff t b a
  unfold bestLang bestLangX2
  dsimp only
  by_cases h1 : scoreX2 t Lang.hausa > scoreX2 t Lang.pidgin
  · rw [if_pos ((hiff _ _).mpr h1), if_pos h1]
    by_cases h2 : scoreX2 t Lang.igbo > scoreX2 t Lang.hausa
    · rw [if_pos ((hiff _ _).mpr h2), if_pos h2]
      by_cases h3 : scoreX2 t Lang.yoruba > scoreX2 t Lang.igbo
      · rw [if_pos ((hiff _ _).mpr h3), if_pos h3]
      · rw [if_neg (fun hq => h3 ((hiff _ _).mp hq)), if_neg h3]
    · rw [if_neg (fun hq => h2 ((hiff _ _).mp hq)), if_neg h2]
      by_cases h3 : scoreX2 t Lang.yoruba > scoreX2 t Lang.hausa
      · rw [if_pos ((hiff _ _).mpr h3), if_pos h3]
      · rw [if_neg (fun hq => h3 ((hiff _ _).mp hq)), if_neg h3]
  · rw [if_neg (fun hq => h1 ((hiff _ _).mp hq)), if_neg h1]
    by_cases h2 : scoreX2 t Lang.igbo > scoreX2 t Lang.pidgin
    · rw [if_pos ((hiff _ _).mpr h2), if_pos h2]
      by_cases h3 : scoreX2 t Lang.yoruba > scoreX2 t Lang.igbo
      · rw [if_pos ((hiff _ _).mpr h3), if_pos h3]
      · rw [if_neg (fun hq => h3 ((hiff _ _).mp hq)), if_neg h3]
    · rw [if_neg (fun hq => h2 ((hiff _ _).mp hq)), if_neg h2]
      by_cases h3 : scoreX2 t Lang.yoruba > scoreX2 t Lang.pidgin
      · rw [if_pos ((hiff _ _).mpr h3), if_pos h3]
      · rw [if_neg (fun hq => h3 ((hiff _ _).mp hq)), if_neg h3]

/-- Evaluation of `detect_language` in terms of kernel-computable doubled scores. -/
theorem detect_language_eval (text : String) :
    detect_language text =
      (if text = "" then none
       else if 0 < scoreX2 (strToLower text) (bestLangX2 (strToLower text))
       then some (bestLangX2 (strToLower text)) else none) := by
  unfold detect_language
  by_cases hne : text = ""
  · rw [if_pos hne, if_pos hne]
  · rw [if_neg hne, if_neg hne]
    dsimp only
    rw [bestLang_eq_bestLangX2]
    by_cases hpos : 0 < scoreX2 (strToLower text) (bestLangX2 (strToLower text))
    · rw [if_pos ((language_score_pos_iff _ _).mpr hpos), if_pos hpos]
    · rw [if_neg (fun hq => hpos ((language_score_pos_iff _ _).mp hq)), if_neg hpos]

/-! ## Claims C5-C8 -/

/-- C5 counterexample.  On `"dey zazzabi"` pidgin and hausa tie for the
strictly highest score (1 each, all others 0), yet `detect_language`
returns `some pidgin` rather than `none` — refuting the claim that ties
yield no detected language. -/
theorem C5_tie_counterexample :
    language_score (strToLower "dey zazzabi") Lang.pidgin =
      language_score (strToLower "dey zazzabi") Lang.hausa ∧
    0 < language_score (strToLower "dey zazzabi") Lang.hausa ∧
    language_score (strToLower "dey zazzabi") Lang.igbo = 0 ∧
    language_score (strToLower "dey zazzabi") Lang.yoruba = 0 ∧
    detect_language "dey zazzabi" = some Lang.pidgin := by
  refine ⟨?_, ?_, ?_, ?_, ?_⟩
  · rw [language_score_eq_scoreX2, language_score_eq_scoreX2,
      show scoreX2 (strToLower "dey zazzabi") Lang.pidgin = 2 from by decide,
      show scoreX2 (strToLower "dey zazzabi") Lang.hausa = 2 from by decide]
  · rw [language_score_pos_iff]
    decide
  · rw [language_score_eq_scoreX2,
      show scoreX2 (strToLower "dey zazzabi") Lang.igbo = 0 from by decide]
    norm_num
  · rw [language_score_eq_scoreX2,
      show scoreX2 (strToLower "dey zazzabi") Lang.yoruba = 0 from by decide]
    norm_num
  · rw [detect_language_eval]
    decide

/-- C5 (amended).  `detect_language` returns `none` exactly when every
language's aggregate score is zero; otherwise it returns a language of
strictly positive, maximal score — and among the languages attaining the
maximum, the earliest in the fixed order pidgin, hausa, igbo, yoruba
(ties are broken by this order, not by returning `none`).  Primary
matches weigh 1 and context matches weigh 0.5, as claimed. -/
theorem C5_detect_tiebreak (text : String) :
    (detect_language text = none ↔
      ∀ l, language_score (strToLower text) l = 0) ∧
    (∀ l, detect_language text = some l →
      0 < language_score (strToLower text) l ∧
      (∀ l2, language_score (strToLower text) l2 ≤
        language_score (strToLower text) l) ∧
      (∀ l2, langIdx l2 < langIdx l →
        language_score (strToLower text) l2 <
          language_score (strToLower text) l)) := by
  by_cases hempty : text = ""
  · subst hempty
    refine ⟨⟨fun _ l => ?_, fun _ => rfl⟩, fun l hl => ?_⟩
    · rw [show strToLower "" = "" from rfl]
      exact language_score_empty l
    · rw [show detect_language "" = none from rfl] at hl
      cases hl
  · have hd : detect_language text =
        (if 0 < language_score (strToLower text) (bestLang (strToLower text))
         then some (bestLang (strToLower text)) else none) := by
      unfold detect_language
      rw [if_neg hempty]
    by_cases hpos :
        0 < language_score (strToLower text) (bestLang (strToLower text))
    · rw [hd, if_pos hpos]
      refine ⟨⟨fun h => ?_, fun hall => ?_⟩, fun l hl => ?_⟩
      · cases h
      · exfalso
        rw [hall (bestLang (strToLower text))] at hpos
        exact lt_irrefl 0 hpos
      · injection hl with hl2
        subst hl2
        exact ⟨hpos, (bestLang_spec _).1, (bestLang_spec _).2⟩
    · rw [hd, if_neg hpos]
      refine ⟨⟨fun _ l => ?_, fun _ => rfl⟩, fun l hl => ?_⟩
      · have hmax := (bestLang_spec (strToLower text)).1 l
        have hnn := language_score_nonneg (strToLower text) l
        have hb0 : language_score (strToLower text) (bestLang (strToLower text)) ≤ 0 :=
          not_lt.mp hpos
        linarith
      · cases hl

/-- C5 witness: on `"zazzabi"` detection succeeds (hausa), and the
amended theorem yields its positive maximal score and strict dominance
over the earlier language pidgin. -/
theorem C5_detect_tiebreak_witness :
    0 < language_score (strToLower "zazzabi") Lang.hausa ∧
    language_score (strToLower "zazzabi") Lang.pidgin <
      language_score (strToLower "zazzabi") Lang.hausa := by
  have hdet : detect_language "zazzabi" = some Lang.hausa := by
    rw [detect_language_eval]
    decide
  have h := (C5_detect_tiebreak "zazzabi").2 Lang.hausa hdet
  exact ⟨h.1, h.2.2 Lang.pidgin (by decide)⟩

/-- C6.  A symptom list in which no phrase matches any detection pattern
(no vernacular content, so no language is detected for any entry) passes
through `translate_symptoms` unchanged, with an empty translation map. -/
theorem C6_english_passthrough (symptoms : List String)
    (h : ∀ s ∈ symptoms, detect_language s = none) :
    translate_symptoms symptoms = (symptoms, []) := by
  unfold translate_symptoms
  have hone : ∀ s ∈ symptoms, translate_one s = (s, false) := by
    intro s hs
    unfold translate_one
    rw [h s hs]
  have hmap : symptoms.map (fun s => (s, translate_one s)) =
      symptoms.map (fun s => (s, (s, false))) :=
    List.map_congr_left (fun s hs => by rw [hone s hs])
  rw [hmap]
  dsimp only
  rw [List.map_map, List.filterMap_map]
  have hfm : ∀ l : List String,
      List.filterMap (fun _ : String => (none : Option (String × String))) l = [] := by
    intro l
    induction l with
    | nil => rfl
    | cons a t _ih => simp
  simp [Function.comp_def, pythonDict, hfm]

/-- C6 witness: canonical English phrases pass through unchanged. -/
theorem C6_english_passthrough_witness :
    translate_symptoms ["fever", "headache", "cough"] =
      (["fever", "headache", "cough"], []) :=
  C6_english_passthrough _ (by
    intro s hs
    rw [detect_language_eval]
    fin_cases hs <;> decide)

/-- C7.  The substitution pass of `_translate_with_language` processes
lexicon entries sorted by phrase length, longest first (every strictly
longer phrase strictly earlier); in particular for a lexicon containing
both "fever" and "high fever", normalizing "high fever" yields the
longer entry's translation, uncorrupted. -/
theorem C7_longest_match_precedence (m : List (String × String)) :
    List.Sorted lenDescRel (sortPhrases m) ∧
    translate_with_mapping
        [("fever", "fever"), ("high fever", "high fever (severe)")]
        "high fever" =
      ("high fever (severe)",
       [("high fever", "high fever (severe)"), ("fever", "fever")]) := by
  refine ⟨List.sorted_insertionSort lenDescRel m, ?_⟩
  decide

/-- C8.  `_run_with_timeout` surfaces a timed-out call as a
`TimeoutError` at the timeout boundary, and the call's eventual outcome
is discarded: the whole run of `analyze_patient` is unchanged under
any replacement of the late outcomes of timed-out attempts. -/
theorem C8_timeout_discard (cfg : Config) (p : Patient) (u : Bool)
    (o1 o2 : Nat → CallBehaviour) (h : ∀ n, sameModuloLate (o1 n) (o2 n)) :
    (∀ late, attemptOutcome cfg.timeout (.timedOut late) =
      .error ("Operation exceeded " ++ toString cfg.timeout ++ "s timeout")) ∧
    analyze_patient cfg p o1 u = analyze_patient cfg p o2 u := by
  refine ⟨fun late => rfl, ?_⟩
  unfold analyze_patient
  by_cases hb : (symptomsFalsy p || ageFalsy p) = true
  · rw [if_pos hb, if_pos hb]
  · rw [if_neg hb, if_neg hb]
    dsimp only
    rw [analyzeLoop_congr cfg o1 o2 u _ h cfg.max_retries 0]

/-- C8 witness: two runs whose only difference is the eventual (post-
timeout) outcome of every call — one would have delivered a validated
Critical verdict, the other an error — produce identical results. -/
theorem C8_timeout_discard_witness :
    analyze_patient {} { age := some 30, symptoms := some ["fever"] }
        (fun _ => .timedOut
          (.ok { triage_level := some 1, triage_label := some "Critical" })) true =
      analyze_patient {} { age := some 30, symptoms := some ["fever"] }
        (fun _ => .timedOut (.error "late network failure")) true :=
  (C8_timeout_discard {} { age := some 30, symptoms := some ["fever"] } true
    (fun _ => .timedOut
      (.ok { triage_level := some 1, triage_label := some "Critical" }))
    (fun _ => .timedOut (.error "late network failure"))
    (fun _ => by simp [sameModuloLate])).2

end MediLink
